import Mathlib

/-!
Shallow embedding of `src/main.rs` of rust-prometheus-nvidia-gpu-exporter.

The program is a Prometheus exporter: `Collector::collect` samples per-device
telemetry into integer gauges, `Collector::process` builds human-readable
per-process summary lines, and `main` routes `GET /metrics`, `GET /gpustat`
and everything else.

Modelling decisions:
* NVML, procfs and the users crate are external collaborators; they are
  embedded as records of (pure) fallible query functions (`Except`-valued
  fields).  One `NVML`/`Procfs`/`Users` value fixes the readings of one
  sampling pass.
* The Prometheus registry's gauge values are embedded as an explicit state
  `GaugeState : GaugeId → List String → Option Int` (a gauge vec entry is
  keyed by its label values; the plain `num_devices` gauge is keyed by `[]`).
  `IntGauge*::set` is the state update `gset`.
  `get_metric_with_label_values(&labels)?` can only fail on a label-arity
  mismatch; every call site passes exactly the declared number of labels, so
  the embedded write is total.
* `u64 as i64` / `u32 as i32` casts are embedded bit-faithfully
  (`u64_as_i64`, `u32_as_i32`).
* Rust `expect`/panic is embedded as the `POutcome.panicked` outcome, which is
  distinct from returning a `CollectingError`.
-/

/-- Error payload of the NVML wrapper (`nvml_wrapper::error::NvmlError`),
abstracted to a numeric code. -/
abbrev NvmlError := Nat

/-- Error payload of the prometheus crate (`prometheus::Error`), abstracted to
a numeric code. -/
abbrev PrometheusError := Nat

/-- Error payload of the procfs crate, abstracted to a numeric code. -/
abbrev ProcError := Nat

/-- `enum CollectingError` from src/main.rs. -/
inductive CollectingError where
  | Nvml (e : NvmlError)
  | Prometheus (e : PrometheusError)
  deriving DecidableEq, Repr

deriving instance DecidableEq for Except

/-- Result of `device.utilization_rates()`: `Utilization { gpu, memory }`,
both `u32`. -/
structure Utilization where
  gpu : Nat
  memory : Nat
  deriving DecidableEq, Repr

/-- Result of `device.memory_info()`: `MemoryInfo { total, free, used }`,
all `u64`. -/
structure MemoryInfo where
  total : Nat
  free : Nat
  used : Nat
  deriving DecidableEq, Repr

/-- One entry of `device.running_compute_processes()`: a `pid : u32` and the
used GPU memory. -/
structure ProcessInfo where
  pid : Nat
  used_gpu_memory : Nat
  deriving DecidableEq, Repr

/-- A device handle: the readings every fallible NVML device query would
return during one sampling pass. -/
structure Device where
  minor_number : Except NvmlError Nat
  uuid : Except NvmlError String
  name : Except NvmlError String
  utilization_rates : Except NvmlError Utilization
  power_usage : Except NvmlError Nat
  temperature : Except NvmlError Nat
  fan_speed : Except NvmlError Nat
  memory_info : Except NvmlError MemoryInfo
  running_compute_processes : Except NvmlError (List ProcessInfo)
  deriving DecidableEq, Repr

/-- The NVML handle: device count and per-index device resolution. -/
structure NVML where
  device_count : Except NvmlError Nat
  device_by_index : Nat → Except NvmlError Device

/-- Result of `procfs::process::Process::new(pid)`: the process's command line
parts (fallible read) and its numeric owner uid (a plain field). -/
structure ProcEntry where
  cmdline : Except ProcError (List String)
  owner : Nat
  deriving DecidableEq, Repr

/-- The procfs collaborator. -/
structure Procfs where
  process_new : Int → Except ProcError ProcEntry

/-- Result of `users::get_user_by_uid`: `name_str` is `user.name().to_str()`,
`none` when the name is not valid UTF-8. -/
structure UserRec where
  name_str : Option String
  deriving DecidableEq, Repr

/-- The users-crate collaborator. -/
structure Users where
  get_user_by_uid : Nat → Option UserRec

/-- Rust `x as i64` applied to a `u64` value (two's-complement bit cast). -/
def u64_as_i64 (x : Nat) : Int :=
  let r : Nat := x % 2 ^ 64
  if r < 2 ^ 63 then (r : Int) else (r : Int) - 2 ^ 64

/-- Rust `x as i32` applied to a `u32` value (two's-complement bit cast). -/
def u32_as_i32 (x : Nat) : Int :=
  let r : Nat := x % 2 ^ 32
  if r < 2 ^ 31 then (r : Int) else (r : Int) - 2 ^ 32

/-- The gauges registered in `Collector::new`. -/
inductive GaugeId where
  | num_devices
  | gpu_utilization
  | memory_utilization
  | power_usage
  | temperature
  | fan_speed
  | total_memory
  | free_memory
  | used_memory
  | process_memory_used
  deriving DecidableEq, Repr

/-- The registry's gauge values: a gauge id and a label-value list key an
optional current value (`none` = this labelled series was never set). The
unlabelled `num_devices` gauge lives at key `[]`. -/
def GaugeState : Type := GaugeId → List String → Option Int

/-- The all-unset registry state right after `Collector::new`. -/
def emptyGauges : GaugeState := fun _ _ => none

/-- `IntGauge::set` / `IntGaugeVec::get_metric_with_label_values(...).set`. -/
def gset (s : GaugeState) (g : GaugeId) (l : List String) (v : Int) : GaugeState :=
  fun g2 l2 => if g2 = g ∧ l2 = l then some v else s g2 l2

/-- Value of `Except.ok`, with a default for the error case. -/
def okD {ε α : Type} (e : Except ε α) (a : α) : α :=
  match e with
  | .ok x => x
  | .error _ => a

/-- Boolean success test for `Except`. -/
def eIsOk {ε α : Type} (e : Except ε α) : Bool :=
  match e with
  | .ok _ => true
  | .error _ => false

/-- The label triple `[minor_number.to_string(), uuid, name]` built in
`Collector::collect`, read with defaults (meaningful when `labelsOk`). -/
def labelsOf (d : Device) : List String :=
  [toString (okD d.minor_number 0), okD d.uuid "", okD d.name ""]

/-- All three structural label fetches of a device succeed. -/
def labelsOk (d : Device) : Bool :=
  eIsOk d.minor_number && eIsOk d.uuid && eIsOk d.name

/-- The error of the first failing structural label fetch, in source order
(`minor_number`, then `uuid`, then `name`); `none` when all three succeed. -/
def structErr (d : Device) : Option NvmlError :=
  match d.minor_number with
  | .error e => some e
  | .ok _ =>
    match d.uuid with
    | .error e => some e
    | .ok _ =>
      match d.name with
      | .error e => some e
      | .ok _ => none

/-- The head of each loop iteration of `Collector::collect`: resolve the
device handle and its structural labels; any failure propagates
(`?` in the source). -/
def stepInfo (nvml : NVML) (i : Nat) : Except CollectingError (Device × List String) :=
  match nvml.device_by_index i with
  | .error e => .error (.Nvml e)
  | .ok d =>
    match d.minor_number with
    | .error e => .error (.Nvml e)
    | .ok mn =>
      match d.uuid with
      | .error e => .error (.Nvml e)
      | .ok uu =>
        match d.name with
        | .error e => .error (.Nvml e)
        | .ok nm => .ok (d, [toString mn, uu, nm])

/-- The body of one loop iteration of `Collector::collect` after the labels
resolved: each `if let Ok(...)` block writes its gauges, a failed read skips
its block, in source order. -/
def collectDevice (d : Device) (labels : List String) (s0 : GaugeState) : GaugeState :=
  let s1 :=
    match d.utilization_rates with
    | .ok u =>
        gset (gset s0 .gpu_utilization labels (Int.ofNat u.gpu))
          .memory_utilization labels (Int.ofNat u.memory)
    | .error _ => s0
  let s2 :=
    match d.power_usage with
    | .ok p => gset s1 .power_usage labels (Int.ofNat p)
    | .error _ => s1
  let s3 :=
    match d.temperature with
    | .ok t => gset s2 .temperature labels (Int.ofNat t)
    | .error _ => s2
  let s4 :=
    match d.fan_speed with
    | .ok f => gset s3 .fan_speed labels (Int.ofNat f)
    | .error _ => s3
  match d.memory_info with
  | .ok m =>
      gset (gset (gset s4 .total_memory labels (u64_as_i64 m.total))
        .free_memory labels (u64_as_i64 m.free))
        .used_memory labels (u64_as_i64 m.used)
  | .error _ => s4

/-- The device loop of `Collector::collect` over the remaining indices; a
structural failure returns the error together with the state written so far
(gauge writes are not rolled back). -/
def collectFrom (nvml : NVML) : List Nat → GaugeState → Except CollectingError Unit × GaugeState
  | [], s => (.ok (), s)
  | i :: rest, s =>
    match stepInfo nvml i with
    | .error e => (.error e, s)
    | .ok dl => collectFrom nvml rest (collectDevice dl.1 dl.2 s)

/-- `Collector::collect` from src/main.rs: query the device count, set the
`num_devices` gauge, then run the device loop. -/
def collect (nvml : NVML) (s : GaugeState) : Except CollectingError Unit × GaugeState :=
  match nvml.device_count with
  | .error e => (.error (.Nvml e), s)
  | .ok n => collectFrom nvml (List.range n) (gset s .num_devices [] (Int.ofNat n))

/-- The value `Collector::collect` would write to gauge `g` for one device,
`none` when the corresponding sensor read fails (or `g` is not a per-device
sensor gauge). -/
def deviceRead (d : Device) : GaugeId → Option Int
  | .gpu_utilization =>
    match d.utilization_rates with
    | .ok u => some (Int.ofNat u.gpu)
    | .error _ => none
  | .memory_utilization =>
    match d.utilization_rates with
    | .ok u => some (Int.ofNat u.memory)
    | .error _ => none
  | .power_usage =>
    match d.power_usage with
    | .ok p => some (Int.ofNat p)
    | .error _ => none
  | .temperature =>
    match d.temperature with
    | .ok t => some (Int.ofNat t)
    | .error _ => none
  | .fan_speed =>
    match d.fan_speed with
    | .ok f => some (Int.ofNat f)
    | .error _ => none
  | .total_memory =>
    match d.memory_info with
    | .ok m => some (u64_as_i64 m.total)
    | .error _ => none
  | .free_memory =>
    match d.memory_info with
    | .ok m => some (u64_as_i64 m.free)
    | .error _ => none
  | .used_memory =>
    match d.memory_info with
    | .ok m => some (u64_as_i64 m.used)
    | .error _ => none
  | .num_devices => none
  | .process_memory_used => none

/-- One gauge write: gauge id, label values, written value. -/
abbrev Write := GaugeId × List String × Int

/-- Replay a list of gauge writes, first to last. -/
def applyWrites (s : GaugeState) : List Write → GaugeState
  | [] => s
  | (g, l, v) :: rest => applyWrites (gset s g l v) rest

/-- The value of the last write in the list hitting key `(g, l)`. -/
def lastOf : List Write → GaugeId → List String → Option Int
  | [], _, _ => none
  | (g0, l0, v) :: rest, g, l =>
    match lastOf rest g l with
    | some v2 => some v2
    | none => if g = g0 ∧ l = l0 then some v else none

/-- The gauge writes one iteration of the device loop performs (in source
order: both utilization gauges, power, temperature, fan speed, then the three
memory gauges). -/
def deviceWrites (d : Device) (labels : List String) : List Write :=
  (match d.utilization_rates with
   | .ok u => [(.gpu_utilization, labels, Int.ofNat u.gpu),
               (.memory_utilization, labels, Int.ofNat u.memory)]
   | .error _ => []) ++
  (match d.power_usage with
   | .ok p => [(.power_usage, labels, Int.ofNat p)]
   | .error _ => []) ++
  (match d.temperature with
   | .ok t => [(.temperature, labels, Int.ofNat t)]
   | .error _ => []) ++
  (match d.fan_speed with
   | .ok f => [(.fan_speed, labels, Int.ofNat f)]
   | .error _ => []) ++
  (match d.memory_info with
   | .ok m => [(.total_memory, labels, u64_as_i64 m.total),
               (.free_memory, labels, u64_as_i64 m.free),
               (.used_memory, labels, u64_as_i64 m.used)]
   | .error _ => [])

/-- The write trace of the device loop: all writes of devices processed before
the first structural failure. -/
def collectFromWrites (nvml : NVML) : List Nat → List Write
  | [] => []
  | i :: rest =>
    match stepInfo nvml i with
    | .error _ => []
    | .ok dl => deviceWrites dl.1 dl.2 ++ collectFromWrites nvml rest

/-- The full write trace of one `Collector::collect` pass. -/
def collectWrites (nvml : NVML) : List Write :=
  match nvml.device_count with
  | .error _ => []
  | .ok n => (GaugeId.num_devices, [], Int.ofNat n) :: collectFromWrites nvml (List.range n)

/-- Outcome of a computation that may return, fail with a `CollectingError`,
or panic (Rust `expect`). -/
inductive POutcome (α : Type) where
  | panicked (msg : String)
  | error (e : CollectingError)
  | ok (v : α)
  deriving DecidableEq, Repr

/-- The summary line `format!("[{}] {}|{}°C {}%| {} / {} MB", ...)` of
`Collector::process`. -/
def gpustatLine (device_num : Nat) (name : String) (temperature gpu_usage used total : Nat) : String :=
  "[" ++ toString device_num ++ "] " ++ name ++ "|" ++ toString temperature ++
    "°C " ++ toString gpu_usage ++ "%| " ++ toString used ++ " / " ++
    toString total ++ " MB"

/-- The body of the inner process loop of `Collector::process` for one
`ProcessInfo`: a failed `procfs::process::Process::new` skips the entry
(`if let Ok`), every later failure is an `expect` panic, in source order
(cmdline, user lookup, temperature, utilization, memory, name encoding). -/
def procStep (d : Device) (device_num : Nat) (name : String) (pf : Procfs) (us : Users)
    (p : ProcessInfo) : POutcome (Option String) :=
  let pid : Int := u32_as_i32 p.pid
  match pf.process_new pid with
  | .error _ => .ok none
  | .ok pr =>
    match pr.cmdline with
    | .error _ => .panicked "cmd name not found"
    | .ok parts =>
      let _cmd := String.intercalate " " parts
      match us.get_user_by_uid pr.owner with
      | none => .panicked "User not found"
      | some owner =>
        match d.temperature with
        | .error _ => .panicked "Temperature"
        | .ok temperature =>
          match d.utilization_rates with
          | .error _ => .panicked "GPU"
          | .ok util =>
            match d.memory_info with
            | .error _ => .panicked "Memory"
            | .ok mem =>
              match owner.name_str with
              | none => .panicked "Encoding error"
              | some _user =>
                .ok (some (gpustatLine device_num name temperature util.gpu mem.used mem.total))

/-- The inner process loop of `Collector::process`: `lines.push(line)` for
every entry that survives, threading the accumulated lines. -/
def procLoop (d : Device) (device_num : Nat) (name : String) (pf : Procfs) (us : Users) :
    List ProcessInfo → List String → POutcome (List String)
  | [], acc => .ok acc
  | p :: rest, acc =>
    match procStep d device_num name pf us p with
    | .panicked m => .panicked m
    | .error e => .error e
    | .ok none => procLoop d device_num name pf us rest acc
    | .ok (some line) => procLoop d device_num name pf us rest (acc ++ [line])

/-- One iteration of the device loop of `Collector::process`: resolve the
device, its process list and its labels (all `?`, pass-fatal), then run the
inner process loop. -/
def deviceStep (nvml : NVML) (pf : Procfs) (us : Users) (i : Nat) (acc : List String) :
    POutcome (List String) :=
  match nvml.device_by_index i with
  | .error e => .error (.Nvml e)
  | .ok d =>
    match d.running_compute_processes with
    | .error e => .error (.Nvml e)
    | .ok procs =>
      match d.minor_number with
      | .error e => .error (.Nvml e)
      | .ok _mn =>
        match d.uuid with
        | .error e => .error (.Nvml e)
        | .ok _uu =>
          match d.name with
          | .error e => .error (.Nvml e)
          | .ok nm => procLoop d i nm pf us procs acc

/-- The device loop of `Collector::process` over the remaining indices. -/
def passLoop (nvml : NVML) (pf : Procfs) (us : Users) :
    List Nat → List String → POutcome (List String)
  | [], acc => .ok acc
  | i :: rest, acc =>
    match deviceStep nvml pf us i acc with
    | .panicked m => .panicked m
    | .error e => .error e
    | .ok acc2 => passLoop nvml pf us rest acc2

/-- `Collector::process` from src/main.rs: enumerate devices and their running
compute processes and return `lines.flatten("\n")`. -/
def process (nvml : NVML) (pf : Procfs) (us : Users) : POutcome String :=
  match nvml.device_count with
  | .error e => .error (.Nvml e)
  | .ok n =>
    match passLoop nvml pf us (List.range n) [] with
    | .panicked m => .panicked m
    | .error e => .error e
    | .ok lines => .ok (String.intercalate "\n" lines)

/-- What the service closure in `main` produces for one request: either an
HTTP response (status, body) or a panic of the handler task (in which case no
response is sent on the connection). -/
inductive HttpOutcome where
  | response (status : Nat) (body : String)
  | panicked (msg : String)
  deriving DecidableEq, Repr

/-- `o` is an HTTP response with a 500-class status. -/
def isServerError (o : HttpOutcome) : Bool :=
  match o with
  | .response st _ => 500 ≤ st && st < 600
  | .panicked _ => false

/-- The request dispatch of `main` from src/main.rs: `GET /metrics` runs
`collect` then encodes the registry (`enc`); `GET /gpustat` runs `process`;
anything else is a 404 with body "Not found". Every `expect` is a panic. -/
def route (nvml : NVML) (pf : Procfs) (us : Users)
    (enc : GaugeState → Except PrometheusError String) (s : GaugeState)
    (method path : String) : HttpOutcome × GaugeState :=
  if method = "GET" ∧ path = "/metrics" then
    match collect nvml s with
    | (.error _, s2) => (.panicked "Error collecting", s2)
    | (.ok _, s2) =>
      match enc s2 with
      | .error _ => (.panicked "Encoding error", s2)
      | .ok body => (.response 200 body, s2)
  else if method = "GET" ∧ path = "/gpustat" then
    match process nvml pf us with
    | .panicked m => (.panicked m, s)
    | .error _ => (.panicked "Failed process query", s)
    | .ok body => (.response 200 body, s)
  else (.response 404 "Not found", s)

/-- Per-process resolvability: the procfs lookup, the cmdline read, the user
lookup and the user-name decoding all succeed (so `procStep` yields a line
rather than skipping or panicking, given working device sensors). -/
def procResolvable (pf : Procfs) (us : Users) (p : ProcessInfo) : Bool :=
  match pf.process_new (u32_as_i32 p.pid) with
  | .error _ => false
  | .ok pr =>
    eIsOk pr.cmdline &&
      (match us.get_user_by_uid pr.owner with
       | none => false
       | some owner => owner.name_str.isSome)

/-- A device on which `Collector::process` neither fails nor panics: all
queries it makes succeed and every listed process is resolvable. -/
def deviceAllOk (pf : Procfs) (us : Users) (d : Device) : Bool :=
  eIsOk d.running_compute_processes && labelsOk d &&
    eIsOk d.temperature && eIsOk d.utilization_rates && eIsOk d.memory_info &&
    (okD d.running_compute_processes []).all (procResolvable pf us)

/-- The summary line `Collector::process` emits for process `p` of device `d`
at index `i`, read off the device's (successful) sensor readings. -/
def expectedLine (i : Nat) (d : Device) (_p : ProcessInfo) : String :=
  gpustatLine i (okD d.name "") (okD d.temperature 0)
    (okD d.utilization_rates ⟨0, 0⟩).gpu
    (okD d.memory_info ⟨0, 0, 0⟩).used
    (okD d.memory_info ⟨0, 0, 0⟩).total

/-- All summary lines device `d` at index `i` contributes, in process
enumeration order. -/
def expectedDevice (i : Nat) (d : Device) : List String :=
  (okD d.running_compute_processes []).map (expectedLine i d)

/-! Concrete fixtures used to instantiate the theorems below. -/

/-- Fixture device 0: every sensor works except the fan-speed read; one
running compute process with pid 42. -/
def wDev0 : Device :=
  { minor_number := .ok 0
    uuid := .ok "GPU-1234"
    name := .ok "Tesla T4"
    utilization_rates := .ok ⟨37, 20⟩
    power_usage := .ok 50
    temperature := .ok 60
    fan_speed := .error 3
    memory_info := .ok ⟨16000000000, 15999999001, 999⟩
    running_compute_processes := .ok [⟨42, 1000⟩] }

/-- Fixture device 1: everything works; no running compute processes. -/
def wDev1 : Device :=
  { minor_number := .ok 1
    uuid := .ok "GPU-5678"
    name := .ok "Tesla V100"
    utilization_rates := .ok ⟨10, 5⟩
    power_usage := .ok 70
    temperature := .ok 55
    fan_speed := .ok 30
    memory_info := .ok ⟨32000000000, 31000000000, 1000000000⟩
    running_compute_processes := .ok [] }

/-- Fixture devices as a lookup function. -/
def wDevAt (i : Nat) : Device :=
  match i with
  | 0 => wDev0
  | 1 => wDev1
  | _ => wDev1

/-- Fixture telemetry source with two devices. -/
def wNvml : NVML :=
  { device_count := .ok 2
    device_by_index := fun i => if i < 2 then .ok (wDevAt i) else .error 9 }

/-- Fixture procfs: pid 42 resolves with command `python train.py` and
owner uid 1000. -/
def wPf : Procfs :=
  { process_new := fun pid =>
      if pid = 42 then .ok { cmdline := .ok ["python", "train.py"], owner := 1000 }
      else .error 1 }

/-- Fixture users table: uid 1000 is `alice`. -/
def wUs : Users :=
  { get_user_by_uid := fun uid =>
      if uid = 1000 then some { name_str := some "alice" } else none }

/-- Label values of fixture device 0. -/
def wLabels0 : List String := ["0", "GPU-1234", "Tesla T4"]

/-- Label values of fixture device 1. -/
def wLabels1 : List String := ["1", "GPU-5678", "Tesla V100"]

/-- Fixture device whose structural `uuid` fetch fails (error code 5). -/
def wDevBad : Device :=
  { minor_number := .ok 1
    uuid := .error 5
    name := .ok "Broken"
    utilization_rates := .ok ⟨1, 1⟩
    power_usage := .ok 10
    temperature := .ok 40
    fan_speed := .ok 20
    memory_info := .ok ⟨100, 50, 50⟩
    running_compute_processes := .ok [] }

/-- Fixture telemetry source: device 0 is healthy, device 1 has a failing
structural label fetch. -/
def wNvml6 : NVML :=
  { device_count := .ok 2
    device_by_index := fun i =>
      if i = 0 then .ok wDev0 else if i = 1 then .ok wDevBad else .error 9 }

/-- Fixture device whose running-compute-process enumeration fails with
error 7 (labels and sensors all fine). -/
def c4dev : Device :=
  { minor_number := .ok 3
    uuid := .ok "GPU-9999"
    name := .ok "Tesla K80"
    utilization_rates := .ok ⟨2, 2⟩
    power_usage := .ok 5
    temperature := .ok 30
    fan_speed := .ok 10
    memory_info := .ok ⟨10, 5, 5⟩
    running_compute_processes := .error 7 }

/-- Fixture telemetry source: device 0's process enumeration fails, device 1
is healthy with one resolvable process. -/
def c4nvml : NVML :=
  { device_count := .ok 2
    device_by_index := fun i =>
      if i = 0 then .ok c4dev else if i = 1 then .ok wDev0 else .error 9 }

/-- Fixture procfs: pid 42 fully resolvable, pid 43 found but with a failing
cmdline read, everything else missing from the process table. -/
def c5pf : Procfs :=
  { process_new := fun pid =>
      if pid = 42 then .ok { cmdline := .ok ["python", "train.py"], owner := 1000 }
      else if pid = 43 then .ok { cmdline := .error 2, owner := 1000 }
      else .error 1 }

/-- Fixture device: like `wDev0` but with one unresolvable process (pid 7)
before the resolvable pid 42. -/
def c5d1 : Device :=
  { wDev0 with running_compute_processes := .ok [⟨7, 1⟩, ⟨42, 1000⟩] }

/-- Fixture device: like `wDev0` with only the resolvable pid 42. -/
def c5d2 : Device :=
  { wDev0 with running_compute_processes := .ok [⟨42, 1000⟩] }

/-- Fixture device: like `wDev0` but with the process whose cmdline read
fails (pid 43). -/
def c5db : Device :=
  { wDev0 with running_compute_processes := .ok [⟨43, 1⟩] }

/-- Single-device telemetry source around `c5d1`. -/
def c5nvml1 : NVML :=
  { device_count := .ok 1
    device_by_index := fun i => if i = 0 then .ok c5d1 else .error 9 }

/-- Single-device telemetry source around `c5d2`. -/
def c5nvml2 : NVML :=
  { device_count := .ok 1
    device_by_index := fun i => if i = 0 then .ok c5d2 else .error 9 }

/-- Single-device telemetry source around `c5db`. -/
def c5nvmlb : NVML :=
  { device_count := .ok 1
    device_by_index := fun i => if i = 0 then .ok c5db else .error 9 }

/-- Fixture telemetry source whose device-count query itself fails. -/
def c7nvml : NVML :=
  { device_count := .error 3
    device_by_index := fun _ => .error 3 }

/-- A registry text encoder that always succeeds. -/
def okEnc : GaugeState → Except PrometheusError String := fun _ => .ok ""

/-- A registry text encoder that always fails. -/
def badEnc : GaugeState → Except PrometheusError String := fun _ => .error 5

/-! Lemmas about the gauge-state write traces. -/

theorem applyWrites_get (W : List Write) :
    ∀ (s : GaugeState) (g : GaugeId) (l : List String),
      applyWrites s W g l =
        match lastOf W g l with
        | some v => some v
        | none => s g l := by
  induction W with
  | nil => intro s g l; rfl
  | cons w rest ih =>
    intro s g l
    obtain ⟨g0, l0, v⟩ := w
    show applyWrites (gset s g0 l0 v) rest g l = _
    rw [ih]
    simp only [lastOf]
    cases h : lastOf rest g l with
    | some v2 => rfl
    | none =>
      show gset s g0 l0 v g l = _
      simp only [gset]
      by_cases hc : g = g0 ∧ l = l0 <;> simp [hc]

theorem lastOf_append (a b : List Write) (g : GaugeId) (l : List String) :
    lastOf (a ++ b) g l =
      match lastOf b g l with
      | some v => some v
      | none => lastOf a g l := by
  induction a with
  | nil => simp only [List.nil_append, lastOf]; cases lastOf b g l <;> rfl
  | cons w a2 ih =>
    obtain ⟨g0, l0, v⟩ := w
    rw [List.cons_append]
    show (match lastOf (a2 ++ b) g l with
          | some v2 => some v2
          | none => if g = g0 ∧ l = l0 then some v else none) =
        match lastOf b g l with
        | some v2 => some v2
        | none =>
          match lastOf a2 g l with
          | some v2 => some v2
          | none => if g = g0 ∧ l = l0 then some v else none
    rw [ih]
    cases lastOf b g l <;> rfl

theorem collectDevice_writes (d : Device) (labels : List String) (s : GaugeState) :
    collectDevice d labels s = applyWrites s (deviceWrites d labels) := by
  rcases hu : d.utilization_rates with eu | u <;>
    rcases hp : d.power_usage with ep | p <;>
      rcases ht : d.temperature with et | t <;>
        rcases hf : d.fan_speed with ef | f <;>
          rcases hm : d.memory_info with em | m <;>
            simp [collectDevice, deviceWrites, applyWrites, hu, hp, ht, hf, hm]

theorem lastOf_deviceWrites (d : Device) (labels : List String) (g : GaugeId) (l : List String) :
    lastOf (deviceWrites d labels) g l = if l = labels then deviceRead d g else none := by
  rcases hu : d.utilization_rates with eu | u <;>
    rcases hp : d.power_usage with ep | p <;>
      rcases ht : d.temperature with et | t <;>
        rcases hf : d.fan_speed with ef | f <;>
          rcases hm : d.memory_info with em | m <;>
            cases g <;> by_cases hll : l = labels <;>
              simp [deviceWrites, lastOf, deviceRead, hu, hp, ht, hf, hm, hll]

theorem applyWrites_append (a b : List Write) :
    ∀ s : GaugeState, applyWrites s (a ++ b) = applyWrites (applyWrites s a) b := by
  induction a with
  | nil => intro s; rfl
  | cons w a2 ih =>
    intro s
    obtain ⟨g0, l0, v⟩ := w
    show applyWrites (gset s g0 l0 v) (a2 ++ b) = _
    rw [ih]
    rfl

theorem collectFrom_writes (nvml : NVML) :
    ∀ (l : List Nat) (s : GaugeState),
      (collectFrom nvml l s).2 = applyWrites s (collectFromWrites nvml l) := by
  intro l
  induction l with
  | nil => intro s; rfl
  | cons i rest ih =>
    intro s
    cases h : stepInfo nvml i with
    | error e => simp [collectFrom, collectFromWrites, h, applyWrites]
    | ok dl =>
      have lhs : (collectFrom nvml (i :: rest) s).2 =
          (collectFrom nvml rest (collectDevice dl.1 dl.2 s)).2 := by
        simp [collectFrom, h]
      rw [lhs, ih]
      simp only [collectFromWrites, h]
      rw [applyWrites_append, collectDevice_writes]

theorem collect_writes (nvml : NVML) (s : GaugeState) :
    (collect nvml s).2 = applyWrites s (collectWrites nvml) := by
  cases h : nvml.device_count with
  | error e => simp [collect, collectWrites, h, applyWrites]
  | ok n =>
    simp only [collect, collectWrites, h]
    rw [collectFrom_writes]
    rfl

theorem collectFrom_fst_ok (nvml : NVML) :
    ∀ (l : List Nat) (s : GaugeState),
      (∀ i ∈ l, eIsOk (stepInfo nvml i) = true) →
      (collectFrom nvml l s).1 = .ok () := by
  intro l
  induction l with
  | nil => intro s _; rfl
  | cons i rest ih =>
    intro s hall
    simp only [collectFrom]
    cases h : stepInfo nvml i with
    | error e =>
      have := hall i (List.mem_cons_self i rest)
      rw [h] at this
      simp [eIsOk] at this
    | ok dl =>
      exact ih _ (fun j hj => hall j (List.mem_cons_of_mem i hj))

theorem stepInfo_ok (nvml : NVML) (i : Nat) (d : Device)
    (hd : nvml.device_by_index i = .ok d) (hl : labelsOk d = true) :
    stepInfo nvml i = .ok (d, labelsOf d) := by
  rcases hmn : d.minor_number with e1 | mn <;>
    rcases huu : d.uuid with e2 | uu <;>
      rcases hnm : d.name with e3 | nm <;>
        (try (rw [labelsOk] at hl; simp [eIsOk, hmn, huu, hnm] at hl)) <;>
          simp [stepInfo, labelsOf, okD, hd, hmn, huu, hnm]

theorem stepInfo_structErr (nvml : NVML) (k : Nat) (d : Device) (e : NvmlError)
    (hd : nvml.device_by_index k = .ok d) (he : structErr d = some e) :
    stepInfo nvml k = .error (.Nvml e) := by
  rcases hmn : d.minor_number with e1 | mn <;>
    rcases huu : d.uuid with e2 | uu <;>
      rcases hnm : d.name with e3 | nm <;>
        simp only [structErr, hmn, huu, hnm] at he <;>
          first
            | exact Option.noConfusion he
            | (have hee := Option.some.inj he
               subst hee
               simp [stepInfo, hd, hmn, huu, hnm])

theorem collectFromWrites_allOk (nvml : NVML) (dev : Nat → Device) :
    ∀ l : List Nat,
      (∀ i ∈ l, stepInfo nvml i = .ok (dev i, labelsOf (dev i))) →
      collectFromWrites nvml l =
        (l.map (fun j => deviceWrites (dev j) (labelsOf (dev j)))).flatten := by
  intro l
  induction l with
  | nil => intro _; rfl
  | cons i rest ih =>
    intro hall
    have hi := hall i (List.mem_cons_self i rest)
    simp only [collectFromWrites, hi, List.map_cons, List.flatten_cons]
    rw [ih (fun j hj => hall j (List.mem_cons_of_mem i hj))]

theorem lastOf_join_none (dev : Nat → Device) (g : GaugeId) (key : List String) :
    ∀ l : List Nat, (∀ j ∈ l, labelsOf (dev j) ≠ key) →
      lastOf ((l.map (fun j => deviceWrites (dev j) (labelsOf (dev j)))).flatten) g key
        = none := by
  intro l
  induction l with
  | nil => intro _; rfl
  | cons j rest ih =>
    intro hall
    have hj := hall j (List.mem_cons_self j rest)
    rw [List.map_cons, List.flatten_cons, lastOf_append,
      ih (fun j2 hj2 => hall j2 (List.mem_cons_of_mem j hj2))]
    show lastOf (deviceWrites (dev j) (labelsOf (dev j))) g key = none
    rw [lastOf_deviceWrites, if_neg (fun h => hj h.symm)]

theorem lastOf_join_at (dev : Nat → Device) (g : GaugeId) (i : Nat) :
    ∀ l : List Nat, i ∈ l →
      (∀ j ∈ l, j ≠ i → labelsOf (dev j) ≠ labelsOf (dev i)) →
      lastOf ((l.map (fun j => deviceWrites (dev j) (labelsOf (dev j)))).flatten) g
          (labelsOf (dev i))
        = deviceRead (dev i) g := by
  intro l
  induction l with
  | nil => intro hi _; exact absurd hi (List.not_mem_nil i)
  | cons j rest ih =>
    intro hi hdist
    rw [List.map_cons, List.flatten_cons, lastOf_append]
    by_cases hmem : i ∈ rest
    · rw [ih hmem (fun j2 hj2 hne => hdist j2 (List.mem_cons_of_mem j hj2) hne)]
      cases hr : deviceRead (dev i) g with
      | some v => rfl
      | none =>
        show lastOf (deviceWrites (dev j) (labelsOf (dev j))) g (labelsOf (dev i)) = none
        rw [lastOf_deviceWrites]
        by_cases hji : j = i
        · subst hji; rw [if_pos rfl]; exact hr
        · rw [if_neg (fun h => hdist j (List.mem_cons_self j rest) hji h.symm)]
    · have hij : i = j := by
        rcases List.mem_cons.mp hi with h | h
        · exact h
        · exact absurd h hmem
      subst hij
      rw [lastOf_join_none dev g (labelsOf (dev i)) rest
        (fun j2 hj2 => hdist j2 (List.mem_cons_of_mem i hj2)
          (fun hji => hmem (hji ▸ hj2)))]
      show lastOf (deviceWrites (dev i) (labelsOf (dev i))) g (labelsOf (dev i))
        = deviceRead (dev i) g
      rw [lastOf_deviceWrites, if_pos rfl]

theorem lastOf_collectFromWrites_num (nvml : NVML) (ll : List String) :
    ∀ l : List Nat,
      lastOf (collectFromWrites nvml l) GaugeId.num_devices ll = none := by
  intro l
  induction l with
  | nil => rfl
  | cons i rest ih =>
    simp only [collectFromWrites]
    cases h : stepInfo nvml i with
    | error e => rfl
    | ok dl =>
      rw [lastOf_append, ih]
      show lastOf (deviceWrites dl.1 dl.2) GaugeId.num_devices ll = none
      rw [lastOf_deviceWrites]
      simp [deviceRead]

theorem range_decomp : ∀ n k : Nat, k < n → ∃ l2, List.range n = List.range k ++ k :: l2 := by
  intro n
  induction n with
  | zero => intro k hk; exact absurd hk (Nat.not_lt_zero k)
  | succ m ih =>
    intro k hk
    rcases Nat.lt_succ_iff_lt_or_eq.mp hk with h | h
    · obtain ⟨l2, hl⟩ := ih k h
      exact ⟨l2 ++ [m], by rw [List.range_succ, hl]; simp⟩
    · subst h
      exact ⟨[], by rw [List.range_succ]⟩

theorem collectFrom_fst_prefix (nvml : NVML) (e : CollectingError) (k : Nat) (l2 : List Nat)
    (hk : stepInfo nvml k = .error e) :
    ∀ (l1 : List Nat) (s : GaugeState), (∀ j ∈ l1, eIsOk (stepInfo nvml j) = true) →
      (collectFrom nvml (l1 ++ k :: l2) s).1 = .error e := by
  intro l1
  induction l1 with
  | nil => intro s _; simp [collectFrom, hk]
  | cons j rest ih =>
    intro s hall
    have hj := hall j (List.mem_cons_self j rest)
    cases h : stepInfo nvml j with
    | error e2 => rw [h] at hj; simp [eIsOk] at hj
    | ok dl =>
      rw [List.cons_append]
      simp only [collectFrom, h]
      exact ih _ (fun j2 hj2 => hall j2 (List.mem_cons_of_mem j hj2))

theorem collectFromWrites_prefix (nvml : NVML) (dev : Nat → Device) (e : CollectingError)
    (k : Nat) (l2 : List Nat) (hk : stepInfo nvml k = .error e) :
    ∀ l1 : List Nat, (∀ j ∈ l1, stepInfo nvml j = .ok (dev j, labelsOf (dev j))) →
      collectFromWrites nvml (l1 ++ k :: l2) =
        (l1.map (fun j => deviceWrites (dev j) (labelsOf (dev j)))).flatten := by
  intro l1
  induction l1 with
  | nil => intro _; simp [collectFromWrites, hk]
  | cons j rest ih =>
    intro hall
    have hj := hall j (List.mem_cons_self j rest)
    rw [List.cons_append]
    simp only [collectFromWrites, hj, List.map_cons, List.flatten_cons]
    rw [ih (fun j2 hj2 => hall j2 (List.mem_cons_of_mem j hj2))]

theorem collect_allOk_char (nvml : NVML) (dev : Nat → Device) (n : Nat) (s : GaugeState)
    (hc : nvml.device_count = .ok n)
    (hd : ∀ i, i < n → nvml.device_by_index i = .ok (dev i))
    (hs : ∀ i, i < n → labelsOk (dev i) = true) :
    (collect nvml s).1 = .ok () ∧
    (collect nvml s).2 = applyWrites s
      ((GaugeId.num_devices, [], Int.ofNat n) ::
        ((List.range n).map (fun j => deviceWrites (dev j) (labelsOf (dev j)))).flatten) := by
  have hall : ∀ i ∈ List.range n, stepInfo nvml i = .ok (dev i, labelsOf (dev i)) := by
    intro i hi
    have hin := List.mem_range.mp hi
    exact stepInfo_ok nvml i (dev i) (hd i hin) (hs i hin)
  constructor
  · simp only [collect, hc]
    exact collectFrom_fst_ok nvml (List.range n) _
      (fun j hj => by rw [hall j hj]; rfl)
  · rw [collect_writes]
    simp only [collectWrites, hc]
    rw [collectFromWrites_allOk nvml dev (List.range n) hall]

theorem collect_abort_char (nvml : NVML) (dev : Nat → Device) (n k : Nat) (s : GaugeState)
    (dk : Device) (e : NvmlError)
    (hc : nvml.device_count = .ok n) (hk : k < n)
    (hd : ∀ j, j < k → nvml.device_by_index j = .ok (dev j))
    (hs : ∀ j, j < k → labelsOk (dev j) = true)
    (hdk : nvml.device_by_index k = .ok dk)
    (he : structErr dk = some e) :
    (collect nvml s).1 = .error (.Nvml e) ∧
    (collect nvml s).2 = applyWrites s
      ((GaugeId.num_devices, [], Int.ofNat n) ::
        ((List.range k).map (fun j => deviceWrites (dev j) (labelsOf (dev j)))).flatten) := by
  obtain ⟨l2, hrange⟩ := range_decomp n k hk
  have hstep : stepInfo nvml k = .error (.Nvml e) := stepInfo_structErr nvml k dk e hdk he
  have hpre : ∀ j ∈ List.range k, stepInfo nvml j = .ok (dev j, labelsOf (dev j)) := by
    intro j hj
    have hjk := List.mem_range.mp hj
    exact stepInfo_ok nvml j (dev j) (hd j hjk) (hs j hjk)
  constructor
  · simp only [collect, hc]
    rw [hrange]
    exact collectFrom_fst_prefix nvml (.Nvml e) k l2 hstep (List.range k) _
      (fun j hj => by rw [hpre j hj]; rfl)
  · rw [collect_writes]
    simp only [collectWrites, hc]
    rw [hrange, collectFromWrites_prefix nvml dev (.Nvml e) k l2 hstep (List.range k) hpre]

/-! Claim theorems for the device-sampling pass. -/

/-- C1: in a `Collector::collect` pass whose device count and structural
labels all resolve, the pass returns `Ok`, every sensor dimension that reads
successfully is written to its gauge under the device's labels, and a failed
optional sensor read leaves exactly that dimension's gauge entry for that
device untouched (skipped), without affecting other dimensions or devices. -/
theorem C1_dimension_skippable (nvml : NVML) (dev : Nat → Device) (n : Nat) (s : GaugeState)
    (hc : nvml.device_count = .ok n)
    (hd : ∀ i, i < n → nvml.device_by_index i = .ok (dev i))
    (hs : ∀ i, i < n → labelsOk (dev i) = true)
    (hdist : ∀ i, i < n → ∀ j, j < n → i ≠ j → labelsOf (dev i) ≠ labelsOf (dev j)) :
    (collect nvml s).1 = .ok () ∧
    (∀ i, i < n → ∀ g v, deviceRead (dev i) g = some v →
      (collect nvml s).2 g (labelsOf (dev i)) = some v) ∧
    (∀ i, i < n → ∀ g, g ≠ GaugeId.num_devices → deviceRead (dev i) g = none →
      (collect nvml s).2 g (labelsOf (dev i)) = s g (labelsOf (dev i))) := by
  obtain ⟨h1, h2⟩ := collect_allOk_char nvml dev n s hc hd hs
  refine ⟨h1, ?_, ?_⟩
  · intro i hi g v hr
    rw [h2, applyWrites_get]
    simp only [lastOf]
    rw [lastOf_join_at dev g i (List.range n) (List.mem_range.mpr hi)
      (fun j hjm hne => hdist j (List.mem_range.mp hjm) i hi hne), hr]
  · intro i hi g hg hr
    rw [h2, applyWrites_get]
    simp only [lastOf]
    rw [lastOf_join_at dev g i (List.range n) (List.mem_range.mpr hi)
      (fun j hjm hne => hdist j (List.mem_range.mp hjm) i hi hne), hr,
      if_neg (fun hcc => hg hcc.1)]

/-- Witness for C1 on the two-device fixture: device 0's fan-speed read
fails, yet the pass returns Ok, device 0's power gauge and device 1's
fan-speed gauge are written, and device 0's fan-speed entry stays unset. -/
theorem C1_dimension_skippable_witness :
    (collect wNvml emptyGauges).1 = .ok () ∧
    (collect wNvml emptyGauges).2 GaugeId.power_usage wLabels0 = some 50 ∧
    (collect wNvml emptyGauges).2 GaugeId.fan_speed wLabels0
      = emptyGauges GaugeId.fan_speed wLabels0 ∧
    (collect wNvml emptyGauges).2 GaugeId.fan_speed wLabels1 = some 30 := by
  have h := C1_dimension_skippable wNvml wDevAt 2 emptyGauges (by decide) (by decide)
    (by decide) (by decide)
  have e0 : labelsOf (wDevAt 0) = wLabels0 := by decide
  have e1 : labelsOf (wDevAt 1) = wLabels1 := by decide
  refine ⟨h.1, ?_, ?_, ?_⟩
  · have h0 := h.2.1 0 (by decide) GaugeId.power_usage 50 (by decide)
    rw [e0] at h0
    exact h0
  · have h0 := h.2.2 0 (by decide) GaugeId.fan_speed (by decide) (by decide)
    rw [e0] at h0
    exact h0
  · have h0 := h.2.1 1 (by decide) GaugeId.fan_speed 30 (by decide)
    rw [e1] at h0
    exact h0

/-- C2: whenever the device-count query succeeds with `n`, the pass leaves
the `num_devices` gauge at exactly `n`, regardless of which (if any) of the
per-device reads fail afterwards. -/
theorem C2_num_devices_gauge (nvml : NVML) (s : GaugeState) (n : Nat)
    (h : nvml.device_count = .ok n) :
    (collect nvml s).2 GaugeId.num_devices [] = some (Int.ofNat n) := by
  rw [collect_writes]
  simp only [collectWrites, h]
  rw [applyWrites_get]
  simp only [lastOf, lastOf_collectFromWrites_num]
  simp

/-- Witness for C2 on the two-device fixture (one device with a failing
fan-speed sensor): the gauge reads exactly 2. -/
theorem C2_num_devices_gauge_witness :
    (collect wNvml emptyGauges).2 GaugeId.num_devices [] = some 2 :=
  C2_num_devices_gauge wNvml emptyGauges 2 rfl

/-- C6: if a device's structural label fetch (minor number / uuid / name)
fails with error `e` at index `k`, the whole `Collector::collect` pass
returns `Err(e)`, and the resulting gauge state carries exactly the
`num_devices` write plus the writes of the devices before `k`: no device at
or after `k` is processed. -/
theorem C6_structural_label_abort (nvml : NVML) (dev : Nat → Device) (n k : Nat)
    (s : GaugeState) (dk : Device) (e : NvmlError)
    (hc : nvml.device_count = .ok n) (hk : k < n)
    (hd : ∀ j, j < k → nvml.device_by_index j = .ok (dev j))
    (hs : ∀ j, j < k → labelsOk (dev j) = true)
    (hdk : nvml.device_by_index k = .ok dk)
    (he : structErr dk = some e) :
    (collect nvml s).1 = .error (.Nvml e) ∧
    (collect nvml s).2 = applyWrites s
      ((GaugeId.num_devices, [], Int.ofNat n) ::
        ((List.range k).map (fun j => deviceWrites (dev j) (labelsOf (dev j)))).flatten) :=
  collect_abort_char nvml dev n k s dk e hc hk hd hs hdk he

/-- Witness for C6: on the fixture where device 1's uuid fetch fails with
error 5, the pass returns that error and the state holds only the
`num_devices` write and device 0's writes. -/
theorem C6_structural_label_abort_witness :
    (collect wNvml6 emptyGauges).1 = .error (.Nvml 5) ∧
    (collect wNvml6 emptyGauges).2 = applyWrites emptyGauges
      ((GaugeId.num_devices, [], Int.ofNat 2) ::
        ((List.range 1).map (fun j => deviceWrites (wDevAt j) (labelsOf (wDevAt j)))).flatten) :=
  C6_structural_label_abort wNvml6 wDevAt 2 1 emptyGauges wDevBad 5 rfl (by decide)
    (by decide) (by decide) (by decide) (by decide)

/-- C8: running `Collector::collect` twice over the same telemetry readings
leaves every gauge entry with the same value as running it once — gauges are
overwritten via `set`, never accumulated. -/
theorem C8_idempotent_sampling (nvml : NVML) (s : GaugeState) (g : GaugeId) (l : List String) :
    (collect nvml ((collect nvml s).2)).2 g l = (collect nvml s).2 g l := by
  rw [collect_writes nvml s, collect_writes nvml (applyWrites s (collectWrites nvml))]
  simp only [applyWrites_get]
  cases lastOf (collectWrites nvml) g l <;> rfl

/-- C10: when a structural label fetch fails at device `k` after the
device-count query succeeded, the pass returns the error but the already
performed writes survive: `num_devices` holds `n` and every successfully read
dimension of the devices before `k` holds its newly written value — no
rollback. -/
theorem C10_no_rollback_on_error (nvml : NVML) (dev : Nat → Device) (n k : Nat)
    (s : GaugeState) (dk : Device) (e : NvmlError)
    (hc : nvml.device_count = .ok n) (hk : k < n)
    (hd : ∀ j, j < k → nvml.device_by_index j = .ok (dev j))
    (hs : ∀ j, j < k → labelsOk (dev j) = true)
    (hdist : ∀ i, i < k → ∀ j, j < k → i ≠ j → labelsOf (dev i) ≠ labelsOf (dev j))
    (hdk : nvml.device_by_index k = .ok dk)
    (he : structErr dk = some e) :
    (collect nvml s).1 = .error (.Nvml e) ∧
    (collect nvml s).2 GaugeId.num_devices [] = some (Int.ofNat n) ∧
    (∀ j, j < k → ∀ g v, deviceRead (dev j) g = some v →
      (collect nvml s).2 g (labelsOf (dev j)) = some v) := by
  obtain ⟨h1, h2⟩ := collect_abort_char nvml dev n k s dk e hc hk hd hs hdk he
  refine ⟨h1, ?_, ?_⟩
  · rw [h2, applyWrites_get]
    simp only [lastOf]
    rw [lastOf_join_none dev GaugeId.num_devices [] (List.range k)
      (fun j _ => by simp [labelsOf])]
    simp
  · intro j hj g v hr
    rw [h2, applyWrites_get]
    simp only [lastOf]
    rw [lastOf_join_at dev g j (List.range k) (List.mem_range.mpr hj)
      (fun j2 hj2 hne => hdist j2 (List.mem_range.mp hj2) j hj hne), hr]

/-- Witness for C10: on the fixture where device 1's uuid fetch fails, the
pass errors, yet `num_devices` reads 2 and device 0's power write is kept. -/
theorem C10_no_rollback_on_error_witness :
    (collect wNvml6 emptyGauges).1 = .error (.Nvml 5) ∧
    (collect wNvml6 emptyGauges).2 GaugeId.num_devices [] = some 2 ∧
    (collect wNvml6 emptyGauges).2 GaugeId.power_usage wLabels0 = some 50 := by
  have h := C10_no_rollback_on_error wNvml6 wDevAt 2 1 emptyGauges wDevBad 5 rfl
    (by decide) (by decide) (by decide) (by decide) (by decide) (by decide)
  have e0 : labelsOf (wDevAt 0) = wLabels0 := by decide
  refine ⟨h.1, h.2.1, ?_⟩
  have h0 := h.2.2 0 (by decide) GaugeId.power_usage 50 (by decide)
  rw [e0] at h0
  exact h0

/-! Lemmas about the process-sampling pass. -/

theorem procLoop_append (d : Device) (i : Nat) (name : String) (pf : Procfs) (us : Users) :
    ∀ (l1 l2 : List ProcessInfo) (acc : List String),
      procLoop d i name pf us (l1 ++ l2) acc =
        match procLoop d i name pf us l1 acc with
        | .ok a => procLoop d i name pf us l2 a
        | .error e => .error e
        | .panicked m => .panicked m := by
  intro l1
  induction l1 with
  | nil => intro l2 acc; rfl
  | cons q rest ih =>
    intro l2 acc
    rw [List.cons_append]
    simp only [procLoop]
    cases procStep d i name pf us q with
    | panicked m => rfl
    | error e => rfl
    | ok o =>
      cases o with
      | none => exact ih l2 acc
      | some line => exact ih l2 (acc ++ [line])

theorem passLoop_append (nvml : NVML) (pf : Procfs) (us : Users) :
    ∀ (l1 l2 : List Nat) (acc : List String),
      passLoop nvml pf us (l1 ++ l2) acc =
        match passLoop nvml pf us l1 acc with
        | .ok a => passLoop nvml pf us l2 a
        | .error e => .error e
        | .panicked m => .panicked m := by
  intro l1
  induction l1 with
  | nil => intro l2 acc; rfl
  | cons j rest ih =>
    intro l2 acc
    rw [List.cons_append]
    simp only [passLoop]
    cases deviceStep nvml pf us j acc with
    | panicked m => rfl
    | error e => rfl
    | ok acc2 => exact ih l2 acc2

theorem procStep_congr (d1 d2 : Device) (i : Nat) (name : String) (pf : Procfs) (us : Users)
    (p : ProcessInfo)
    (htemp : d1.temperature = d2.temperature)
    (hutil : d1.utilization_rates = d2.utilization_rates)
    (hmem : d1.memory_info = d2.memory_info) :
    procStep d1 i name pf us p = procStep d2 i name pf us p := by
  simp only [procStep, htemp, hutil, hmem]

theorem procLoop_congr (d1 d2 : Device) (i : Nat) (name : String) (pf : Procfs) (us : Users)
    (htemp : d1.temperature = d2.temperature)
    (hutil : d1.utilization_rates = d2.utilization_rates)
    (hmem : d1.memory_info = d2.memory_info) :
    ∀ (l : List ProcessInfo) (acc : List String),
      procLoop d1 i name pf us l acc = procLoop d2 i name pf us l acc := by
  intro l
  induction l with
  | nil => intro acc; rfl
  | cons q rest ih =>
    intro acc
    simp only [procLoop, procStep_congr d1 d2 i name pf us q htemp hutil hmem]
    cases procStep d2 i name pf us q with
    | panicked m => rfl
    | error e => rfl
    | ok o =>
      cases o with
      | none => exact ih acc
      | some line => exact ih (acc ++ [line])

theorem procLoop_drop (d : Device) (i : Nat) (name : String) (pf : Procfs) (us : Users)
    (p : ProcessInfo) (hp : procStep d i name pf us p = .ok none) :
    ∀ (pre post : List ProcessInfo) (acc : List String),
      procLoop d i name pf us (pre ++ p :: post) acc
        = procLoop d i name pf us (pre ++ post) acc := by
  intro pre
  induction pre with
  | nil =>
    intro post acc
    rw [List.nil_append, List.nil_append]
    simp only [procLoop, hp]
  | cons q rest ih =>
    intro post acc
    rw [List.cons_append, List.cons_append]
    simp only [procLoop]
    cases procStep d i name pf us q with
    | panicked m => rfl
    | error e => rfl
    | ok o =>
      cases o with
      | none => exact ih post acc
      | some line => exact ih post (acc ++ [line])

theorem deviceStep_drop (nvml1 nvml2 : NVML) (pf : Procfs) (us : Users) (i : Nat)
    (d1 d2 : Device) (pre post : List ProcessInfo) (p : ProcessInfo) (err : ProcError)
    (h1 : nvml1.device_by_index i = .ok d1) (h2 : nvml2.device_by_index i = .ok d2)
    (hr1 : d1.running_compute_processes = .ok (pre ++ p :: post))
    (hr2 : d2.running_compute_processes = .ok (pre ++ post))
    (hmn : d1.minor_number = d2.minor_number) (huu : d1.uuid = d2.uuid)
    (hnm : d1.name = d2.name)
    (htemp : d1.temperature = d2.temperature)
    (hutil : d1.utilization_rates = d2.utilization_rates)
    (hmem : d1.memory_info = d2.memory_info)
    (hp : pf.process_new (u32_as_i32 p.pid) = .error err) :
    ∀ acc, deviceStep nvml1 pf us i acc = deviceStep nvml2 pf us i acc := by
  intro acc
  simp only [deviceStep, h1, h2, hr1, hr2, hmn, huu, hnm]
  cases d2.minor_number with
  | error e => rfl
  | ok mn =>
    cases d2.uuid with
    | error e => rfl
    | ok uu =>
      cases d2.name with
      | error e => rfl
      | ok nm =>
        have hstep : procStep d1 i nm pf us p = .ok none := by
          simp only [procStep, hp]
        show procLoop d1 i nm pf us (pre ++ p :: post) acc
          = procLoop d2 i nm pf us (pre ++ post) acc
        rw [procLoop_drop d1 i nm pf us p hstep pre post acc]
        exact procLoop_congr d1 d2 i nm pf us htemp hutil hmem (pre ++ post) acc

theorem passLoop_congr_at (nvml1 nvml2 : NVML) (pf : Procfs) (us : Users) (i : Nat)
    (hcongr : ∀ acc, deviceStep nvml1 pf us i acc = deviceStep nvml2 pf us i acc)
    (hother : ∀ j, j ≠ i → nvml1.device_by_index j = nvml2.device_by_index j) :
    ∀ (l : List Nat) (acc : List String),
      passLoop nvml1 pf us l acc = passLoop nvml2 pf us l acc := by
  intro l
  induction l with
  | nil => intro acc; rfl
  | cons j rest ih =>
    intro acc
    have hstep : deviceStep nvml1 pf us j acc = deviceStep nvml2 pf us j acc := by
      by_cases hji : j = i
      · subst hji; exact hcongr acc
      · simp only [deviceStep, hother j hji]
    simp only [passLoop, hstep]
    cases deviceStep nvml2 pf us j acc with
    | panicked m => rfl
    | error e => rfl
    | ok acc2 => exact ih acc2

/-- C4 counterexample: on the fixture where device 0's process enumeration
fails with error 7 while device 1 is healthy and would produce a summary line
(as the second conjunct shows for the same device in a healthy source), the
whole pass returns `Err(7)` and no line of any device is produced —
refuting the claim that other devices still report. -/
theorem C4_counterexample :
    process c4nvml wPf wUs = .error (.Nvml 7) ∧
    process wNvml wPf wUs = .ok "[0] Tesla T4|60°C 37%| 999 / 16000000000 MB" := by
  constructor
  · decide
  · decide

/-- C4 amended: when enumerating running compute processes fails for the
device at index `i` (reached after the earlier devices processed fine), the
error propagates with `?` and `Collector::process` returns `Err`: the entire
pass aborts, and no device — neither earlier nor later — contributes lines
to the output. -/
theorem C4_enum_failure_aborts_pass (nvml : NVML) (pf : Procfs) (us : Users)
    (n i : Nat) (d : Device) (e : NvmlError) (acc : List String)
    (hc : nvml.device_count = .ok n) (hi : i < n)
    (hreach : passLoop nvml pf us (List.range i) [] = .ok acc)
    (hd : nvml.device_by_index i = .ok d)
    (hrun : d.running_compute_processes = .error e) :
    process nvml pf us = .error (.Nvml e) := by
  obtain ⟨l2, hrange⟩ := range_decomp n i hi
  have hstep : deviceStep nvml pf us i acc = .error (.Nvml e) := by
    simp only [deviceStep, hd, hrun]
  simp only [process, hc, hrange, passLoop_append, hreach]
  simp only [passLoop, hstep]

/-- Witness for the amended C4 on the failing-enumeration fixture. -/
theorem C4_enum_failure_aborts_pass_witness :
    process c4nvml wPf wUs = .error (.Nvml 7) :=
  C4_enum_failure_aborts_pass c4nvml wPf wUs 2 0 c4dev 7 [] rfl (by decide) rfl
    (by decide) rfl

/-- C5 counterexample: pid 43's process-table entry exists but its command
line read fails; instead of dropping the line and continuing, the pass
panics (the `expect("cmd name not found")` in the source) — refuting the
claim that identity-resolution failure merely omits the line. -/
theorem C5_counterexample :
    process c5nvmlb c5pf wUs = .panicked "cmd name not found" := by
  decide

/-- C5 amended: only a process whose process-table lookup itself fails
(`Process::new` error) is silently dropped — the pass output then equals the
output with that process absent (first conjunct). If the process-table entry
is found but its command line cannot be read, the pass panics with
"cmd name not found" instead of continuing (second conjunct). -/
theorem C5_identity_failure (nvml1 nvml2 : NVML) (pf : Procfs) (us : Users) (i : Nat)
    (d1 d2 : Device) (pre post : List ProcessInfo) (p : ProcessInfo) :
    (∀ err : ProcError, pf.process_new (u32_as_i32 p.pid) = .error err →
      nvml1.device_count = nvml2.device_count →
      (∀ j, j ≠ i → nvml1.device_by_index j = nvml2.device_by_index j) →
      nvml1.device_by_index i = .ok d1 → nvml2.device_by_index i = .ok d2 →
      d1.running_compute_processes = .ok (pre ++ p :: post) →
      d2.running_compute_processes = .ok (pre ++ post) →
      d1.minor_number = d2.minor_number → d1.uuid = d2.uuid → d1.name = d2.name →
      d1.temperature = d2.temperature →
      d1.utilization_rates = d2.utilization_rates →
      d1.memory_info = d2.memory_info →
      process nvml1 pf us = process nvml2 pf us) ∧
    (∀ (n : Nat) (acc0 acc1 : List String) (mn : Nat) (uu nm : String)
        (pr : ProcEntry) (ce : ProcError),
      nvml1.device_count = .ok n → i < n →
      passLoop nvml1 pf us (List.range i) [] = .ok acc0 →
      nvml1.device_by_index i = .ok d1 →
      d1.running_compute_processes = .ok (pre ++ p :: post) →
      d1.minor_number = .ok mn → d1.uuid = .ok uu → d1.name = .ok nm →
      procLoop d1 i nm pf us pre acc0 = .ok acc1 →
      pf.process_new (u32_as_i32 p.pid) = .ok pr → pr.cmdline = .error ce →
      process nvml1 pf us = .panicked "cmd name not found") := by
  constructor
  · intro err hp hcount hother hd1 hd2 hr1 hr2 hmn huu hnm htemp hutil hmem
    have hpass := passLoop_congr_at nvml1 nvml2 pf us i
      (deviceStep_drop nvml1 nvml2 pf us i d1 d2 pre post p err hd1 hd2 hr1 hr2
        hmn huu hnm htemp hutil hmem hp)
      hother
    cases hn : nvml2.device_count with
    | error e => simp only [process, hcount, hn]
    | ok n => simp only [process, hcount, hn, hpass]
  · intro n acc0 acc1 mn uu nm pr ce hc hi hreach hd1 hr1 hmn huu hnm hpre hpr hce
    obtain ⟨l2, hrange⟩ := range_decomp n i hi
    have hstep : deviceStep nvml1 pf us i acc0 = .panicked "cmd name not found" := by
      simp only [deviceStep, hd1, hr1, hmn, huu, hnm]
      rw [procLoop_append, hpre]
      have hps : procStep d1 i nm pf us p = .panicked "cmd name not found" := by
        simp only [procStep, hpr, hce]
      simp only [procLoop, hps]
    simp only [process, hc, hrange, passLoop_append, hreach]
    simp only [passLoop, hstep]

/-- Witness for the amended C5: dropping the unresolvable pid 7 leaves the
pass output identical to the pass without it, and the failing-cmdline pid 43
panics the pass. -/
theorem C5_identity_failure_witness :
    process c5nvml1 c5pf wUs = process c5nvml2 c5pf wUs ∧
    process c5nvmlb c5pf wUs = .panicked "cmd name not found" := by
  constructor
  · exact (C5_identity_failure c5nvml1 c5nvml2 c5pf wUs 0 c5d1 c5d2 [] [⟨42, 1000⟩]
      ⟨7, 1⟩).1 1 (by decide) rfl
      (fun j hj => by simp [c5nvml1, c5nvml2, if_neg hj])
      (by decide) (by decide) rfl rfl rfl rfl rfl rfl rfl rfl
  · exact (C5_identity_failure c5nvmlb c5nvmlb c5pf wUs 0 c5db c5db [] []
      ⟨43, 1⟩).2 1 [] [] 0 "GPU-1234" "Tesla T4" ⟨.error 2, 1000⟩ 2 rfl (by decide)
      rfl (by decide) rfl rfl rfl rfl rfl (by decide) rfl

theorem procStep_allOk (d : Device) (i : Nat) (name : String) (pf : Procfs) (us : Users)
    (p : ProcessInfo)
    (ht : eIsOk d.temperature = true) (hu : eIsOk d.utilization_rates = true)
    (hm : eIsOk d.memory_info = true)
    (hp : procResolvable pf us p = true) :
    procStep d i name pf us p = .ok (some (gpustatLine i name (okD d.temperature 0)
      (okD d.utilization_rates ⟨0, 0⟩).gpu
      (okD d.memory_info ⟨0, 0, 0⟩).used (okD d.memory_info ⟨0, 0, 0⟩).total)) := by
  rcases hpn : pf.process_new (u32_as_i32 p.pid) with e1 | pr
  · simp [procResolvable, hpn] at hp
  rcases hcl : pr.cmdline with e2 | parts
  · simp [procResolvable, hpn, eIsOk, hcl] at hp
  rcases hub : us.get_user_by_uid pr.owner with _ | owner
  · simp [procResolvable, hpn, hub] at hp
  rcases hns : owner.name_str with _ | uname
  · simp [procResolvable, hpn, hub, hns] at hp
  rcases htv : d.temperature with e3 | t
  · rw [htv] at ht; simp [eIsOk] at ht
  rcases huv : d.utilization_rates with e4 | util
  · rw [huv] at hu; simp [eIsOk] at hu
  rcases hmv : d.memory_info with e5 | mem
  · rw [hmv] at hm; simp [eIsOk] at hm
  simp [procStep, hpn, hcl, hub, hns, htv, huv, hmv, okD]

theorem procLoop_allOk (d : Device) (i : Nat) (name : String) (pf : Procfs) (us : Users)
    (ht : eIsOk d.temperature = true) (hu : eIsOk d.utilization_rates = true)
    (hm : eIsOk d.memory_info = true) :
    ∀ (l : List ProcessInfo) (acc : List String),
      l.all (procResolvable pf us) = true →
      procLoop d i name pf us l acc
        = .ok (acc ++ l.map (fun _p => gpustatLine i name (okD d.temperature 0)
            (okD d.utilization_rates ⟨0, 0⟩).gpu
            (okD d.memory_info ⟨0, 0, 0⟩).used (okD d.memory_info ⟨0, 0, 0⟩).total)) := by
  intro l
  induction l with
  | nil => intro acc _; simp [procLoop]
  | cons p rest ih =>
    intro acc hall
    rw [List.all_cons, Bool.and_eq_true] at hall
    simp only [procLoop, procStep_allOk d i name pf us p ht hu hm hall.1]
    rw [ih (acc ++ [gpustatLine i name (okD d.temperature 0)
      (okD d.utilization_rates ⟨0, 0⟩).gpu
      (okD d.memory_info ⟨0, 0, 0⟩).used (okD d.memory_info ⟨0, 0, 0⟩).total]) hall.2]
    simp

theorem deviceStep_allOk (nvml : NVML) (pf : Procfs) (us : Users) (i : Nat) (d : Device)
    (hd : nvml.device_by_index i = .ok d) (hok : deviceAllOk pf us d = true) :
    ∀ acc : List String, deviceStep nvml pf us i acc = .ok (acc ++ expectedDevice i d) := by
  intro acc
  have hok2 := hok
  rw [deviceAllOk] at hok2
  simp only [Bool.and_eq_true] at hok2
  obtain ⟨⟨⟨⟨⟨hrun, hlab⟩, ht⟩, hu⟩, hm⟩, hall⟩ := hok2
  rcases hrv : d.running_compute_processes with e0 | procs
  · rw [hrv] at hrun; simp [eIsOk] at hrun
  rcases hmn : d.minor_number with e1 | mn
  · simp [labelsOk, eIsOk, hmn] at hlab
  rcases huu : d.uuid with e2 | uu
  · simp [labelsOk, eIsOk, hmn, huu] at hlab
  rcases hnm : d.name with e3 | nm
  · simp [labelsOk, eIsOk, hmn, huu, hnm] at hlab
  have hall2 : procs.all (procResolvable pf us) = true := by
    rw [hrv] at hall
    simpa [okD] using hall
  simp only [deviceStep, hd, hrv, hmn, huu, hnm]
  show procLoop d i nm pf us procs acc = _
  rw [procLoop_allOk d i nm pf us ht hu hm procs acc hall2]
  have hfun : (fun _p : ProcessInfo => gpustatLine i nm (okD d.temperature 0)
      (okD d.utilization_rates ⟨0, 0⟩).gpu
      (okD d.memory_info ⟨0, 0, 0⟩).used (okD d.memory_info ⟨0, 0, 0⟩).total)
      = expectedLine i d := by
    funext q
    simp [expectedLine, hnm, okD]
  rw [hfun]
  simp [expectedDevice, hrv, okD]

theorem passLoop_allOk (nvml : NVML) (dev : Nat → Device) (pf : Procfs) (us : Users) :
    ∀ (l : List Nat) (acc : List String),
      (∀ i ∈ l, nvml.device_by_index i = .ok (dev i)) →
      (∀ i ∈ l, deviceAllOk pf us (dev i) = true) →
      passLoop nvml pf us l acc
        = .ok (acc ++ (l.map (fun i => expectedDevice i (dev i))).flatten) := by
  intro l
  induction l with
  | nil => intro acc _ _; simp [passLoop]
  | cons j rest ih =>
    intro acc hd hok
    simp only [passLoop,
      deviceStep_allOk nvml pf us j (dev j) (hd j (List.mem_cons_self j rest))
        (hok j (List.mem_cons_self j rest)) acc]
    rw [ih (acc ++ expectedDevice j (dev j))
      (fun i hi => hd i (List.mem_cons_of_mem j hi))
      (fun i hi => hok i (List.mem_cons_of_mem j hi))]
    simp

/-- C9: in a pass where every device and every listed process resolves, the
`/gpustat` output is exactly one `gpustatLine`-formatted summary line
(`"[<device_index>] <name>|<temperature>°C <gpu_util>%| <used> / <total> MB"`)
per running compute process, in device-enumeration order and then
process-enumeration order, joined with newlines. -/
theorem C9_gpustat_line_format (nvml : NVML) (dev : Nat → Device) (pf : Procfs)
    (us : Users) (n : Nat)
    (hc : nvml.device_count = .ok n)
    (hd : ∀ i, i < n → nvml.device_by_index i = .ok (dev i))
    (hok : ∀ i, i < n → deviceAllOk pf us (dev i) = true) :
    process nvml pf us = .ok (String.intercalate "\n"
      (((List.range n).map (fun i => expectedDevice i (dev i))).flatten)) := by
  simp only [process, hc]
  rw [passLoop_allOk nvml dev pf us (List.range n) []
    (fun i hi => hd i (List.mem_range.mp hi))
    (fun i hi => hok i (List.mem_range.mp hi))]
  simp

/-- Witness for C9 on the two-device fixture (device 0 has one resolvable
process, device 1 none): the output is device 0's single formatted line. -/
theorem C9_gpustat_line_format_witness :
    process wNvml wPf wUs = .ok "[0] Tesla T4|60°C 37%| 999 / 16000000000 MB" := by
  have h := C9_gpustat_line_format wNvml wDevAt wPf wUs 2 rfl (by decide) (by decide)
  have e : String.intercalate "\n"
      (((List.range 2).map (fun i => expectedDevice i (wDevAt i))).flatten)
      = "[0] Tesla T4|60°C 37%| 999 / 16000000000 MB" := by decide
  rw [e] at h
  exact h

/-- C3: evaluation of the process pass at a concrete input exhibiting the
bug: one device with one fully resolvable process is observed (`/gpustat`
returns its line with status 200), yet the `process_memory_used_bytes` gauge
entry for the spec's 6-label key is never written — the gauge state is left
untouched.  The source builds `proc_labels` but never calls `set` on
`process_memory_used_gauge` (which is not even a field of `Collector`). -/
theorem C3_process_gauge_never_written :
    (route wNvml wPf wUs okEnc emptyGauges "GET" "/gpustat").1
      = .response 200 "[0] Tesla T4|60°C 37%| 999 / 16000000000 MB" ∧
    (route wNvml wPf wUs okEnc emptyGauges "GET" "/gpustat").2 GaugeId.process_memory_used
      ["0", "GPU-1234", "Tesla T4", "42", "alice", "python train.py"] = none := by
  constructor
  · decide
  · decide

/-- C7 counterexample: when the device-count query fails, the `/metrics`
handler does not produce a 500-class HTTP response — it panics (the
`expect("Error collecting")` in `main`), so no response is sent at all. -/
theorem C7_counterexample :
    isServerError (route c7nvml wPf wUs okEnc emptyGauges "GET" "/metrics").1 = false ∧
    (route c7nvml wPf wUs okEnc emptyGauges "GET" "/metrics").1
      = .panicked "Error collecting" := by
  constructor
  · decide
  · decide

/-- C7 amended: on internal failure the `/metrics` handler panics instead of
answering: a failed `collect` panics with "Error collecting" and a failed
registry encoding panics with "Encoding error".  In particular the handler
never returns a 200 (nor any other status, 500-class included) for a failed
pass, so no truncated snapshot is ever served. -/
theorem C7_metrics_failure_panics (nvml : NVML) (pf : Procfs) (us : Users)
    (enc : GaugeState → Except PrometheusError String) (s : GaugeState) :
    (∀ e, (collect nvml s).1 = .error e →
      (route nvml pf us enc s "GET" "/metrics").1 = .panicked "Error collecting") ∧
    (∀ pe, (collect nvml s).1 = .ok () → enc ((collect nvml s).2) = .error pe →
      (route nvml pf us enc s "GET" "/metrics").1 = .panicked "Encoding error") := by
  constructor
  · intro e he
    simp only [route, if_pos (And.intro rfl rfl)]
    rcases hcol : collect nvml s with ⟨res, s2⟩
    rw [hcol] at he
    simp only at he
    subst he
    rfl
  · intro pe h1 h2
    simp only [route, if_pos (And.intro rfl rfl)]
    rcases hcol : collect nvml s with ⟨res, s2⟩
    rw [hcol] at h1 h2
    simp only at h1 h2
    subst h1
    simp [h2]

/-- Witness for the amended C7: a failing device count panics the handler
with "Error collecting"; a failing encoder panics it with "Encoding error". -/
theorem C7_metrics_failure_panics_witness :
    (route c7nvml wPf wUs okEnc emptyGauges "GET" "/metrics").1
      = .panicked "Error collecting" ∧
    (route wNvml wPf wUs badEnc emptyGauges "GET" "/metrics").1
      = .panicked "Encoding error" :=
  ⟨(C7_metrics_failure_panics c7nvml wPf wUs okEnc emptyGauges).1 (.Nvml 3) (by decide),
   (C7_metrics_failure_panics wNvml wPf wUs badEnc emptyGauges).2 5 (by decide) (by decide)⟩

